import Mathlib

set_option autoImplicit false

namespace SceneFinder

/-!
Shallow embedding of the scene-resolution pipeline of `src/server.js`
(scenefinder-upload-backend).  Strings are modelled as `List Char`;
JS `split`, `join`, `trim`, `includes` and the caption-stripping regex
are embedded as the explicit recursive functions below.
-/

/-- JS `split('\n')` on a character list: splits at every newline.
The empty string yields one empty piece, as in JS. -/
def splitNl : List Char → List (List Char)
  | [] => [[]]
  | c :: cs =>
    match splitNl cs with
    | [] => [[c]]
    | l :: ls => if c = '\n' then [] :: l :: ls else (c :: l) :: ls

/-- JS `join(' ')` on a list of lines: intersperse a single space. -/
def joinSp : List (List Char) → List Char
  | [] => []
  | [l] => l
  | l :: ls => l ++ ' ' :: joinSp ls

/-- Drop the maximal leading run of decimal digits (the greedy `\d+` of the
caption regex; JS `\d` is exactly `[0-9]`, which is `Char.isDigit`). -/
def dropDigits : List Char → List Char
  | [] => []
  | c :: cs => if c.isDigit then dropDigits cs else c :: cs

/-- Consume the fixed-width timecode `\d{2}:\d{2}:\d{2}\.\d{3}` at the front
of the list, returning the remainder on success. -/
def matchTC : List Char → Option (List Char)
  | d1 :: d2 :: c1 :: d3 :: d4 :: c2 :: d5 :: d6 :: p :: d7 :: d8 :: d9 :: rest =>
    if d1.isDigit && d2.isDigit && c1 == ':' && d3.isDigit && d4.isDigit && c2 == ':'
        && d5.isDigit && d6.isDigit && p == '.' && d7.isDigit && d8.isDigit && d9.isDigit
    then some rest else none
  | _ => none

/-- What the fourth regex alternative requires after the digit run: a literal
newline, a timecode, the arrow token ` --> `, and a second timecode. -/
def afterDigits : List Char → Bool
  | '\n' :: rest =>
    match matchTC rest with
    | some (' ' :: '-' :: '-' :: '>' :: ' ' :: r3) => (matchTC r3).isSome
    | _ => false
  | _ => false

/-- The fourth alternative of the caption-stripping regex of `server.js`
line 106: `\d+\n\d{2}:\d{2}:\d{2}\.\d{3} --> \d{2}:\d{2}:\d{2}\.\d{3}`,
anchored at the start of the line.  Since `\n` is not a digit, the greedy
`\d+` is equivalent to taking the maximal digit run and then requiring a
literal newline. -/
def idxTimecode : List Char → Bool
  | [] => false
  | c :: cs => c.isDigit && afterDigits (dropDigits cs)

/-- The discard test `line.match(/^(WEBVTT|Kind:|Language:|\d+\n\d{2}:\d{2}:\d{2}\.\d{3} --> \d{2}:\d{2}:\d{2}\.\d{3})/)`
of `server.js` line 106 (true = the line is discarded). -/
def vttDiscard (l : List Char) : Bool :=
  "WEBVTT".toList.isPrefixOf l || "Kind:".toList.isPrefixOf l
    || "Language:".toList.isPrefixOf l || idxTimecode l

/-- JS `line.trim() === ''`: every character of the line is whitespace
(the blank-line filter of `server.js` line 107). -/
def isBlank (l : List Char) : Bool := l.all (fun c => c.isWhitespace)

/-- The caption normalization of `server.js` lines 104-108: split the raw
payload at newlines, drop the lines matched by the regex, drop blank lines,
and join the survivors with single spaces. -/
def normalizeVtt (s : List Char) : List Char :=
  joinSp (((splitNl s).filter (fun l => !vttDiscard l)).filter (fun l => !isBlank l))

/-- Does `v=([^&]+)` match at the current position?  On success returns the
captured group: the first character after `v=` (which must not be `&`)
followed by the maximal run of non-ampersand characters. -/
def vidAt : List Char → Option (List Char)
  | 'v' :: '=' :: d :: rest =>
    if d == '&' then none else some (d :: rest.takeWhile (fun x => !(x == '&')))
  | _ => none

/-- The video-id extraction `link.match(/v=([^&]+)/)` of `server.js` line 72:
scan left to right for the first position where `v=` is followed by at least
one non-ampersand character and return the captured group. -/
def extractVid : List Char → Option (List Char)
  | [] => none
  | c :: cs =>
    match vidAt (c :: cs) with
    | some v => some v
    | none => extractVid cs

/-- JS `haystack.includes(pat)`: the pattern occurs contiguously somewhere in
the list (used for the `youtube.com/watch` link filter of line 65). -/
def containsSub (pat : List Char) : List Char → Bool
  | [] => pat.isPrefixOf []
  | c :: cs => pat.isPrefixOf (c :: cs) || containsSub pat cs

/-- One organic search result of the search provider (title/link/snippet). -/
structure SearchResult where
  title : List Char
  link : List Char
  snippet : List Char
deriving DecidableEq

/-- Failure shape of an external provider call: an HTTP error response with a
status code (`error.response.status`), or a failure with no response at all
(`error.response` undefined). -/
inductive ProviderFailure
  | http (status : Nat)
  | network
deriving DecidableEq

/-- One caption-track descriptor returned by the caption provider
(`caption.id`, `caption.snippet.language`). -/
structure CaptionTrack where
  id : List Char
  language : List Char
deriving DecidableEq

/-- One element of the `results` array that `searchWebAndYoutube` stringifies
back to the model. -/
structure Evidence where
  title : List Char
  link : List Char
  snippet : List Char
  video_id : Option (List Char)
  transcript : List Char
deriving DecidableEq

/-- The two JSON shapes `searchWebAndYoutube` can return once parsed:
an object with a `results` array, or the object with truthy
`quota_exhausted`. -/
inductive SearchOut
  | results (rs : List Evidence)
  | quotaExhausted
deriving DecidableEq

/-- Behaviour of the external providers during one `searchWebAndYoutube`
call: the outcome of the search request, of the caption-track listing
request, and of the caption-payload request (each either a typed response or
a `ProviderFailure`). -/
structure SerpEnv where
  searchResp : Except ProviderFailure (List SearchResult)
  captionList : Except ProviderFailure (List CaptionTrack)
  captionPayload : Except ProviderFailure (List Char)

/-- The quota test of `server.js` line 131:
`error.response && (error.response.status === 403 || error.response.status === 429)`. -/
def isQuotaStatus : ProviderFailure → Bool
  | .http s => s == 403 || s == 429
  | .network => false

/-- The caption-fetch block of `server.js` lines 77-117 for a known video id:
list the caption tracks, pick the first English one, download and normalize
its payload.  Any provider failure is caught by the inner `catch` and
becomes the `Error fetching transcript.` sentinel; a missing English track
becomes the `No English captions available.` sentinel.  The second component
counts the caption-provider HTTP requests actually issued. -/
def fetchTranscript (env : SerpEnv) : List Char × Nat :=
  match env.captionList with
  | .error _ => ("Error fetching transcript.".toList, 1)
  | .ok tracks =>
    match tracks.find? (fun t => t.language == "en".toList || t.language == "en-US".toList) with
    | none => ("No English captions available.".toList, 1)
    | some _ =>
      match env.captionPayload with
      | .error _ => ("Error fetching transcript.".toList, 2)
      | .ok vtt => (normalizeVtt vtt, 2)

/-- `searchWebAndYoutube` of `server.js` lines 49-138, as a function of the
providers' behaviour.  Search failure is classified by the outer `catch`
(quota statuses vs everything else); otherwise the organic results are
filtered to `youtube.com/watch` links, the top hit's video id is extracted,
and the transcript is fetched only when an id was found.  The second
component counts caption-provider HTTP requests (zero when the caption block
is never entered). -/
def searchWebAndYoutube (env : SerpEnv) : SearchOut × Nat :=
  match env.searchResp with
  | .error e =>
    if isQuotaStatus e then (.quotaExhausted, 0) else (.results [], 0)
  | .ok organic =>
    match organic.filter (fun r => containsSub "youtube.com/watch".toList r.link) with
    | [] => (.results [], 0)
    | top :: _ =>
      match extractVid top.link with
      | none =>
        (.results [⟨top.title, top.link, top.snippet, none, "Transcript not fetched.".toList⟩], 0)
      | some vid =>
        let tc := fetchTranscript env
        (.results [⟨top.title, top.link, top.snippet, some vid, tc.1⟩], tc.2)

/-- The canonical result shape the prompts require (§3 of the spec and the
JSON schema embedded in `server.js` lines 197-205). -/
structure SceneRecord where
  movie_or_series : List Char
  season : Option Int
  episode : Option Int
  characters : List (List Char)
  timestamp : List Char
  context_or_summary : List Char
deriving DecidableEq

/-- One entry of `message.tool_calls`: the function name and the parsed
`query` argument. -/
structure ToolCall where
  functionName : List Char
  query : List Char
deriving DecidableEq

/-- One chat-completion response as the handler consumes it: the message
content after `JSON.parse` (`none` = unparsable), and the `tool_calls`
field (`none` = the field is absent/undefined, `some []` = an empty array,
which JS treats as truthy). -/
structure ModelResponse where
  content : Option SceneRecord
  tool_calls : Option (List ToolCall)

/-- The conversation messages the handler accumulates, abstracted to what the
quota check of line 287 inspects: the role and, for tool messages, the
parsed content. -/
inductive Msg
  | user
  | assistantToolCalls
  | tool (content : SearchOut)
deriving DecidableEq

/-- The predicate of `server.js` line 287:
`msg.role === 'tool' && msg.content && JSON.parse(msg.content).quota_exhausted`. -/
def msgQuota : Msg → Bool
  | .tool .quotaExhausted => true
  | _ => false

/-- Behaviour of the model and the providers during one request, from the
point where the transcription is available (`server.js` line 211 onward):
the three possible chat-completion responses and, for each executed
retrieval invocation, the providers' behaviour during it. -/
structure PipelineEnv where
  phase1 : ModelResponse
  phase2 : ModelResponse
  finalResp : ModelResponse
  provider : Nat → SerpEnv

/-- The only failure the handler itself produces past transcription: an
exception caught at line 307 and surfaced as HTTP 500. -/
inductive PipeErr
  | serverError
deriving DecidableEq

/-- Instrumentation: how many chat-completion calls and how many
`searchWebAndYoutube` invocations one run performed. -/
structure RunStats where
  idCalls : Nat
  retrievalCalls : Nat
deriving DecidableEq

/-- The tool-call loop of `server.js` lines 262-284: for each requested call
whose function name is `search_web_and_youtube`, invoke the retrieval tool;
a `quota_exhausted` response `break`s out of the loop (note: before the
response is pushed to `messages`); any other response is pushed as a tool
message.  Calls with other function names are skipped.  `k` counts the
retrieval invocations executed so far. -/
def runTools (provider : Nat → SerpEnv) : List ToolCall → Nat → List Msg → List Msg × Nat
  | [], k, msgs => (msgs, k)
  | tc :: rest, k, msgs =>
    if tc.functionName == "search_web_and_youtube".toList then
      match (searchWebAndYoutube (provider k)).1 with
      | .quotaExhausted => (msgs, k + 1)
      | .results rs => runTools provider rest (k + 1) (msgs ++ [.tool (.results rs)])
    else runTools provider rest k msgs

/-- The resolution pipeline of `server.js` lines 211-306, after
transcription: parse the Phase-1 response (an unparsable one throws and is
caught at line 307); if `movie_or_series` is `Unknown`, issue the Phase-2
call; if its message carries a (truthy) `tool_calls` array, run the tool
loop, then — unless some pushed tool message is `quota_exhausted` (line
287) — issue the final call and parse its content.  Returns the response
record or the caught error, plus call counts. -/
def runPipeline (env : PipelineEnv) : Except PipeErr SceneRecord × RunStats :=
  match env.phase1.content with
  | none => (.error .serverError, ⟨1, 0⟩)
  | some rec1 =>
    if rec1.movie_or_series == "Unknown".toList then
      match env.phase2.tool_calls with
      | some tcs =>
        let mk := runTools env.provider tcs 0 [Msg.user, Msg.assistantToolCalls]
        if !(mk.1.any msgQuota) then
          match env.finalResp.content with
          | none => (.error .serverError, ⟨3, mk.2⟩)
          | some rec3 => (.ok rec3, ⟨3, mk.2⟩)
        else (.ok rec1, ⟨2, mk.2⟩)
      | none => (.ok rec1, ⟨2, 0⟩)
    else (.ok rec1, ⟨1, 0⟩)

/-- The HTTP response body of `server.js` lines 303-306:
`res.status(200).json(.success: true, data: sceneDetails.)` — the record is
embedded verbatim, with no validation or clearing step. -/
structure ApiResponse where
  success : Bool
  data : SceneRecord
deriving DecidableEq

/-- What `server.js` lines 303-306 do with the terminal record: wrap it,
unchanged, in the success envelope. -/
def assembleResponse (r : SceneRecord) : ApiResponse := ⟨true, r⟩

/-- The whole handler past transcription: run the pipeline and send the
terminal record wrapped by `assembleResponse` (or the 500 error). -/
def handleUpload (env : PipelineEnv) : Except PipeErr ApiResponse × RunStats :=
  let rs := runPipeline env
  (rs.1.map assembleResponse, rs.2)

/-- The count of tool invocations requested by one model response (zero when
the `tool_calls` field is absent). -/
def toolCallLimit (m : ModelResponse) : Nat :=
  match m.tool_calls with
  | some tcs => tcs.length
  | none => 0

/-! ### Concrete sample data used by witnesses and counterexamples -/

/-- A terminal record that violates the §3 invariant: `Unknown` work with a
non-null season and episode. -/
def recUnknown : SceneRecord :=
  ⟨"Unknown".toList, some 1, some 2, ["Unknown".toList], "Unknown".toList,
    "A best-effort guess.".toList⟩

/-- A confidently identified Phase-1 record. -/
def recKnown : SceneRecord :=
  ⟨"Inception".toList, none, none, ["Dom Cobb".toList], "Approx. 00:15:00".toList,
    "Dream heist briefing.".toList⟩

/-- A record the final identification call could produce. -/
def recFinal : SceneRecord :=
  ⟨"Rim of the World".toList, none, none, ["Security Officer".toList],
    "Approx. 00:03:00".toList, "Device collection at camp.".toList⟩

/-- A tool call requesting the retrieval capability. -/
def tcSearch : ToolCall :=
  ⟨"search_web_and_youtube".toList, "put it in my box Amanda Cerny site:youtube.com".toList⟩

/-- Providers behaving trivially: the search succeeds with no results. -/
def serpOkEmpty : SerpEnv := ⟨.ok [], .ok [], .ok []⟩

/-- The search provider answers with HTTP 429 (Scenario C of §8). -/
def serpQuota429 : SerpEnv := ⟨.error (.http 429), .ok [], .ok []⟩

/-- The search succeeds with one video hit whose link carries a video id, but
the caption-track listing fails with HTTP 403. -/
def serpCap403 : SerpEnv :=
  ⟨.ok [⟨"Rim Of The World Amanda Cerny".toList,
      "https://www.youtube.com/watch?v=abc".toList, "clip".toList⟩],
    .error (.http 403), .ok []⟩

/-- Phase 1 yields the invariant-violating `Unknown` record and Phase 2
requests no tools (`tool_calls` absent). -/
def envC1 : PipelineEnv :=
  ⟨⟨some recUnknown, none⟩, ⟨none, none⟩, ⟨none, none⟩, fun _ => serpOkEmpty⟩

/-- Phase 1 is confident; nothing else is consulted. -/
def envC2 : PipelineEnv :=
  ⟨⟨some recKnown, none⟩, ⟨none, none⟩, ⟨none, none⟩, fun _ => serpOkEmpty⟩

/-- Phase 1 is `Unknown`; Phase 2 requests two retrieval invocations; the
search provider answers 429; the final response parses to `recFinal`. -/
def envC3 : PipelineEnv :=
  ⟨⟨some recUnknown, none⟩, ⟨none, some [tcSearch, tcSearch]⟩, ⟨some recFinal, none⟩,
    fun _ => serpQuota429⟩

/-- Phase 1 is `Unknown`; Phase 2 requests one retrieval invocation that
yields no results; the final response does not parse. -/
def envC4 : PipelineEnv :=
  ⟨⟨some recUnknown, none⟩, ⟨none, some [tcSearch]⟩, ⟨none, none⟩, fun _ => serpOkEmpty⟩

/-- Phase 1 is `Unknown`; Phase 2 carries an empty (but present, hence
truthy) `tool_calls` array; the final response parses to `recFinal`. -/
def envC9 : PipelineEnv :=
  ⟨⟨some recUnknown, none⟩, ⟨none, some []⟩, ⟨some recFinal, none⟩, fun _ => serpOkEmpty⟩

/-- A search result whose link is a watch page without any `v=` parameter. -/
def serpNoVid : SerpEnv :=
  ⟨.ok [⟨"some clip".toList, "https://youtube.com/watch/abc".toList, "snippet".toList⟩],
    .ok [], .ok []⟩

/-! ### Lemmas about the caption normalizer -/

theorem splitNl_ne_nil (s : List Char) : splitNl s ≠ [] := by
  induction s with
  | nil => simp [splitNl]
  | cons c cs ih =>
    unfold splitNl
    cases h : splitNl cs with
    | nil => simp
    | cons l ls =>
      by_cases hc : c = '\n' <;> simp [hc]

theorem not_nl_mem_of_mem_splitNl {s l : List Char} (hl : l ∈ splitNl s) : '\n' ∉ l := by
  induction s generalizing l with
  | nil =>
    simp [splitNl] at hl
    simp [hl]
  | cons c cs ih =>
    unfold splitNl at hl
    cases h : splitNl cs with
    | nil => exact absurd h (splitNl_ne_nil cs)
    | cons l0 ls =>
      rw [h] at hl
      by_cases hc : c = '\n'
      · simp [hc] at hl
        rcases hl with hl | hl | hl
        · simp [hl]
        · exact ih (by rw [h, hl]; exact List.mem_cons_self l0 ls)
        · exact ih (by rw [h]; exact List.mem_cons_of_mem l0 hl)
      · simp [hc] at hl
        rcases hl with hl | hl
        · intro hmem
          rw [hl] at hmem
          rcases List.mem_cons.mp hmem with h1 | h1
          · exact hc h1.symm
          · exact ih (by rw [h]; exact List.mem_cons_self l0 ls) h1
        · exact ih (by rw [h]; exact List.mem_cons_of_mem l0 hl)

theorem splitNl_eq_single {s : List Char} (h : '\n' ∉ s) : splitNl s = [s] := by
  induction s with
  | nil => simp [splitNl]
  | cons c cs ih =>
    have hc : c ≠ '\n' := fun hc => h (by simp [hc])
    have hcs : '\n' ∉ cs := fun hm => h (List.mem_cons_of_mem c hm)
    unfold splitNl
    rw [ih hcs]
    simp [hc]

theorem mem_joinSp_head {x : Char} {l : List Char} (ls : List (List Char)) (hx : x ∈ l) :
    x ∈ joinSp (l :: ls) := by
  cases ls with
  | nil => simpa [joinSp] using hx
  | cons l2 ls2 =>
    simp only [joinSp, List.mem_append]
    exact Or.inl hx

theorem nl_not_mem_joinSp {ls : List (List Char)} (h : ∀ l ∈ ls, '\n' ∉ l) :
    '\n' ∉ joinSp ls := by
  induction ls with
  | nil => simp [joinSp]
  | cons l ls ih =>
    cases ls with
    | nil => simpa [joinSp] using h l (List.mem_cons_self l [])
    | cons l2 ls2 =>
      simp only [joinSp, List.mem_append, List.mem_cons]
      rintro (hm | hm | hm)
      · exact h l (List.mem_cons_self l _) hm
      · exact absurd hm.symm (by decide)
      · exact ih (fun x hx => h x (List.mem_cons_of_mem l hx)) hm

theorem isPrefixOf_append_space_eq_false {w l : List Char} (r : List Char)
    (hw : ∀ c ∈ w, c ≠ ' ') (h : w.isPrefixOf l = false) :
    w.isPrefixOf (l ++ ' ' :: r) = false := by
  induction w generalizing l with
  | nil => simp [List.isPrefixOf] at h
  | cons a w ih =>
    cases l with
    | nil =>
      have ha : a ≠ ' ' := hw a (List.mem_cons_self a w)
      simp [List.isPrefixOf, ha]
    | cons b l =>
      simp only [List.cons_append, List.isPrefixOf, Bool.and_eq_false_iff] at h ⊢
      rcases h with h | h
      · exact Or.inl h
      · exact Or.inr (ih (fun c hc => hw c (List.mem_cons_of_mem a hc)) h)

theorem mem_of_mem_dropDigits {x : Char} {l : List Char} (h : x ∈ dropDigits l) : x ∈ l := by
  induction l with
  | nil => simp [dropDigits] at h
  | cons c cs ih =>
    unfold dropDigits at h
    by_cases hc : c.isDigit
    · simp [hc] at h
      exact List.mem_cons_of_mem c (ih h)
    · simpa [hc] using h

theorem nl_mem_of_afterDigits {l : List Char} (h : afterDigits l = true) : '\n' ∈ l := by
  rw [afterDigits.eq_def] at h
  split at h
  · exact List.mem_cons_self _ _
  · simp at h

theorem nl_mem_of_idxTimecode {l : List Char} (h : idxTimecode l = true) : '\n' ∈ l := by
  cases l with
  | nil => simp [idxTimecode] at h
  | cons c cs =>
    simp only [idxTimecode, Bool.and_eq_true] at h
    exact List.mem_cons_of_mem c (mem_of_mem_dropDigits (nl_mem_of_afterDigits h.2))

theorem prefix_joinSp_false {w l : List Char} (ls : List (List Char))
    (hw : ∀ c ∈ w, c ≠ ' ') (h : w.isPrefixOf l = false) :
    w.isPrefixOf (joinSp (l :: ls)) = false := by
  cases ls with
  | nil => simpa [joinSp] using h
  | cons l2 ls2 =>
    show w.isPrefixOf (l ++ ' ' :: joinSp (l2 :: ls2)) = false
    exact isPrefixOf_append_space_eq_false _ hw h

theorem vttDiscard_joinSp_eq_false {l : List Char} (ls : List (List Char))
    (hl : vttDiscard l = false) (hnl : '\n' ∉ joinSp (l :: ls)) :
    vttDiscard (joinSp (l :: ls)) = false := by
  have hidx : idxTimecode (joinSp (l :: ls)) = false := by
    cases hit : idxTimecode (joinSp (l :: ls)) with
    | false => rfl
    | true => exact absurd (nl_mem_of_idxTimecode hit) hnl
  simp only [vttDiscard, Bool.or_eq_false_iff] at hl ⊢
  obtain ⟨⟨⟨h1, h2⟩, h3⟩, _⟩ := hl
  exact ⟨⟨⟨prefix_joinSp_false ls (by decide) h1, prefix_joinSp_false ls (by decide) h2⟩,
    prefix_joinSp_false ls (by decide) h3⟩, hidx⟩

theorem isBlank_joinSp_eq_false {l : List Char} (ls : List (List Char))
    (h : isBlank l = false) : isBlank (joinSp (l :: ls)) = false := by
  have hex : ∃ c ∈ l, ¬ (c.isWhitespace = true) := by
    by_contra hall
    push_neg at hall
    rw [show isBlank l = l.all (fun c => c.isWhitespace) from rfl] at h
    rw [List.all_eq_true.mpr fun c hc => hall c hc] at h
    exact absurd h (by simp)
  obtain ⟨c, hc, hcw⟩ := hex
  cases hb : isBlank (joinSp (l :: ls)) with
  | false => rfl
  | true =>
    exact absurd (List.all_eq_true.mp hb c (mem_joinSp_head ls hc)) hcw

/-- Claim C6: the caption normalizer of `server.js` lines 104-108 is
idempotent — normalizing an already-normalized payload returns it
unchanged.  The kept lines contain no newline, so the re-split yields one
line; that line is non-blank, starts with no discarded keyword (the
survivors' first characters are separated from any following text by the
joining spaces), and cannot match the timecode alternative, which demands a
newline. -/
theorem C6_normalize_idempotent (s : List Char) :
    normalizeVtt (normalizeVtt s) = normalizeVtt s := by
  have hns : normalizeVtt s
      = joinSp (((splitNl s).filter fun l => !vttDiscard l).filter fun l => !isBlank l) := rfl
  have hmem : ∀ l ∈ ((splitNl s).filter fun l => !vttDiscard l).filter fun l => !isBlank l,
      '\n' ∉ l ∧ vttDiscard l = false ∧ isBlank l = false := by
    intro l hl
    have h2 := List.mem_filter.mp hl
    have h1 := List.mem_filter.mp h2.1
    exact ⟨not_nl_mem_of_mem_splitNl h1.1, by simpa using h1.2, by simpa using h2.2⟩
  cases hps : ((splitNl s).filter fun l => !vttDiscard l).filter fun l => !isBlank l with
  | nil =>
    rw [hns, hps]
    decide
  | cons l ls =>
    rw [hps] at hmem
    rw [hns, hps]
    have hnl : '\n' ∉ joinSp (l :: ls) :=
      nl_not_mem_joinSp fun x hx => (hmem x hx).1
    have hsingle : splitNl (joinSp (l :: ls)) = [joinSp (l :: ls)] := splitNl_eq_single hnl
    have hdisc : vttDiscard (joinSp (l :: ls)) = false :=
      vttDiscard_joinSp_eq_false ls (hmem l (List.mem_cons_self l ls)).2.1 hnl
    have hblank : isBlank (joinSp (l :: ls)) = false :=
      isBlank_joinSp_eq_false ls (hmem l (List.mem_cons_self l ls)).2.2
    unfold normalizeVtt
    rw [hsingle]
    simp [List.filter_cons, hdisc, hblank, joinSp]

/-- Claim C5: the code keeps cue-index lines and timecode-range lines.  On a
cue-timed payload with header, blank line, cue index `1`, a timecode range
and the text `Hello`, the normalizer emits the cue index and the timecode
range verbatim instead of discarding them, so the output is not the spoken
text `Hello` that the claimed algorithm would produce.  (The `\d+\n...`
alternative of the regex can never match: after `split('\n')` no line
contains a newline.) -/
theorem C5_timecode_lines_kept :
    normalizeVtt "WEBVTT\n\n1\n00:00:01.000 --> 00:00:02.000\nHello".toList
      = "1 00:00:01.000 --> 00:00:02.000 Hello".toList
    ∧ ¬ (normalizeVtt "WEBVTT\n\n1\n00:00:01.000 --> 00:00:02.000\nHello".toList
      = "Hello".toList) := by
  constructor
  · decide
  · decide

/-! ### Lemmas about the resolver pipeline -/

theorem runTools_any_msgQuota (provider : Nat → SerpEnv) (tcs : List ToolCall) (k : Nat)
    (msgs : List Msg) (h : msgs.any msgQuota = false) :
    (runTools provider tcs k msgs).1.any msgQuota = false := by
  induction tcs generalizing k msgs with
  | nil => simpa [runTools] using h
  | cons tc rest ih =>
    unfold runTools
    by_cases hname : (tc.functionName == "search_web_and_youtube".toList) = true
    · rw [if_pos hname]
      cases hout : (searchWebAndYoutube (provider k)).1 with
      | quotaExhausted => simpa using h
      | results rs =>
        apply ih
        simp [List.any_append, h, msgQuota]
    · rw [if_neg hname]
      exact ih _ _ h

theorem runTools_count_le (provider : Nat → SerpEnv) (tcs : List ToolCall) (k : Nat)
    (msgs : List Msg) : (runTools provider tcs k msgs).2 ≤ k + tcs.length := by
  induction tcs generalizing k msgs with
  | nil => simp [runTools]
  | cons tc rest ih =>
    unfold runTools
    by_cases hname : (tc.functionName == "search_web_and_youtube".toList) = true
    · rw [if_pos hname]
      cases hout : (searchWebAndYoutube (provider k)).1 with
      | quotaExhausted =>
        simp only [List.length_cons]
        omega
      | results rs =>
        have := ih (k + 1) (msgs ++ [.tool (.results rs)])
        simp only [List.length_cons]
        omega
    · rw [if_neg hname]
      have := ih k msgs
      simp only [List.length_cons]
      omega

/-! ### Claim theorems -/

/-- Claim C1 (counterexample): the pipeline returns a record whose
`movie_or_series` is `Unknown` while `season` is non-null — nothing clears
the fields before the record leaves the pipeline. -/
theorem C1_counterexample :
    (handleUpload envC1).1 = .ok ⟨true, recUnknown⟩
    ∧ recUnknown.movie_or_series = "Unknown".toList
    ∧ ¬ recUnknown.season = none := by
  refine ⟨rfl, rfl, by decide⟩

/-- Claim C1 (amended): the response-assembly step of `server.js` lines
303-306 performs no validation and no clearing: every terminal record is
embedded verbatim in the success envelope, `season`, `episode` and
`movie_or_series` untouched — the §3 invariant holds only if the model
already respected it. -/
theorem C1_amended_no_clearing (env : PipelineEnv) (r : SceneRecord)
    (h : (runPipeline env).1 = .ok r) :
    (handleUpload env).1 = .ok (assembleResponse r)
    ∧ (assembleResponse r).data.season = r.season
    ∧ (assembleResponse r).data.episode = r.episode
    ∧ (assembleResponse r).data.movie_or_series = r.movie_or_series := by
  refine ⟨?_, rfl, rfl, rfl⟩
  show ((runPipeline env).1.map assembleResponse) = .ok (assembleResponse r)
  rw [h]
  rfl

/-- Witness for C1 (amended) at `envC1`. -/
theorem C1_amended_witness :
    (handleUpload envC1).1 = .ok (assembleResponse recUnknown)
    ∧ (assembleResponse recUnknown).data.season = recUnknown.season
    ∧ (assembleResponse recUnknown).data.episode = recUnknown.episode
    ∧ (assembleResponse recUnknown).data.movie_or_series = recUnknown.movie_or_series :=
  C1_amended_no_clearing envC1 recUnknown rfl

/-- Claim C2: when the Phase-1 response parses to a record whose
`movie_or_series` is not `Unknown`, the handler skips the whole fallback
branch: zero retrieval invocations, one identification call, and the
Phase-1 record is the returned record. -/
theorem C2_phase1_gate (p1t p2t pft : Option (List ToolCall))
    (p2c pfc : Option SceneRecord) (prov : Nat → SerpEnv) (rec1 : SceneRecord)
    (h2 : ¬ rec1.movie_or_series = "Unknown".toList) :
    runPipeline ⟨⟨some rec1, p1t⟩, ⟨p2c, p2t⟩, ⟨pfc, pft⟩, prov⟩ = (.ok rec1, ⟨1, 0⟩) := by
  have hb : (rec1.movie_or_series == "Unknown".toList) = false :=
    beq_eq_false_iff_ne.mpr h2
  simp only [runPipeline]
  rw [hb]
  rfl

/-- Witness for C2 at `envC2`. -/
theorem C2_witness : runPipeline envC2 = (.ok recKnown, ⟨1, 0⟩) :=
  C2_phase1_gate none none none none none (fun _ => serpOkEmpty) recKnown (by decide)

/-- Claim C3 (code bug, evaluated at the failing input): Phase 1 is
`Unknown`, Phase 2 requests two retrieval invocations, and the first one
hits a 429.  The loop does abort the second invocation (only one retrieval
call is made), but — because the quota-exhausted response `break`s out
before being pushed to `messages` — the guard of line 287 finds no
`quota_exhausted` tool message, so the third identification call IS made
and its parsed content, not the Phase-1 record, is returned.  This
contradicts the comments at lines 275, 286 and 296 of `server.js`. -/
theorem C3_quota_still_calls_final :
    runPipeline envC3 = (.ok recFinal, ⟨3, 1⟩) ∧ ¬ recFinal = recUnknown := by
  refine ⟨rfl, by decide⟩

/-- Claim C4 (counterexample): Phase 1 `Unknown`, one retrieval invocation
returning no results, final response unparsable — the request fails with
the caught exception (HTTP 500); it does not fall back to the Phase-1
record. -/
theorem C4_counterexample :
    (runPipeline envC4).1 = .error .serverError
    ∧ ¬ (runPipeline envC4).1 = .ok recUnknown := by
  refine ⟨rfl, ?_⟩
  intro h
  rw [show (runPipeline envC4).1 = .error .serverError from rfl] at h
  exact Except.noConfusion h

/-- Claim C4 (amended): when the third identification call's content fails
to parse, `JSON.parse` throws, the exception is caught at line 307 and the
request fails with HTTP 500 — there is no fallback to the Phase-1 record. -/
theorem C4_final_parse_failure_errors (p1t pft : Option (List ToolCall))
    (p2c : Option SceneRecord) (tcs : List ToolCall) (prov : Nat → SerpEnv)
    (rec1 : SceneRecord)
    (h2 : rec1.movie_or_series = "Unknown".toList) :
    (runPipeline ⟨⟨some rec1, p1t⟩, ⟨p2c, some tcs⟩, ⟨none, pft⟩, prov⟩).1
      = .error .serverError := by
  have hb : (rec1.movie_or_series == "Unknown".toList) = true := beq_iff_eq.mpr h2
  have hq := runTools_any_msgQuota prov tcs 0 [Msg.user, Msg.assistantToolCalls]
    (by decide)
  simp only [runPipeline]
  rw [hb, hq]
  rfl

/-- Witness for C4 (amended) at `envC4`. -/
theorem C4_witness : (runPipeline envC4).1 = .error .serverError :=
  C4_final_parse_failure_errors none none none [tcSearch] (fun _ => serpOkEmpty)
    recUnknown (by decide)

/-- Claim C7 (counterexample): a caption-provider failure with HTTP 403
during a retrieval call yields neither `QuotaExhausted` nor `Empty`: the
inner `catch` of line 113 turns it into an `Evidence` outcome carrying the
`Error fetching transcript.` sentinel. -/
theorem C7_counterexample :
    searchWebAndYoutube serpCap403
      = (.results [⟨"Rim Of The World Amanda Cerny".toList,
          "https://www.youtube.com/watch?v=abc".toList, "clip".toList,
          some "abc".toList, "Error fetching transcript.".toList⟩], 1)
    ∧ ¬ (searchWebAndYoutube serpCap403).1 = .quotaExhausted
    ∧ ¬ (searchWebAndYoutube serpCap403).1 = .results [] := by
  refine ⟨rfl, by decide, by decide⟩

/-- Claim C7 (amended): the classification applies to failures of the SEARCH
provider call: a 403 or 429 response maps to the quota-exhausted outcome
and any other search failure maps to the empty-results outcome, with no
error raised (the embedding is a total function); caption-provider failures
instead produce an Evidence outcome with the error sentinel. -/
theorem C7_search_failure_classification (env : SerpEnv) (e : ProviderFailure)
    (h : env.searchResp = .error e) :
    searchWebAndYoutube env
      = ((if isQuotaStatus e then .quotaExhausted else .results []), 0) := by
  unfold searchWebAndYoutube
  rw [h]
  by_cases hq : isQuotaStatus e = true <;> simp [hq]

/-- Witness for C7 (amended): a 429 search failure yields the quota outcome,
a 500 search failure yields the empty outcome. -/
theorem C7_witness :
    searchWebAndYoutube serpQuota429 = (.quotaExhausted, 0)
    ∧ searchWebAndYoutube ⟨.error (.http 500), .ok [], .ok []⟩ = (.results [], 0) := by
  constructor
  · exact (C7_search_failure_classification serpQuota429 (.http 429) rfl).trans rfl
  · exact (C7_search_failure_classification ⟨.error (.http 500), .ok [], .ok []⟩
      (.http 500) rfl).trans rfl

/-- Claim C8: every run issues at most three identification calls, and the
only retrieval invocations executed are those requested by the first
Phase-2 response (at most its `tool_calls` length; responses after it are
never scanned for tool calls). -/
theorem C8_bounded_protocol (env : PipelineEnv) :
    (runPipeline env).2.idCalls ≤ 3
    ∧ (runPipeline env).2.retrievalCalls ≤ toolCallLimit env.phase2 := by
  obtain ⟨⟨p1c, p1t⟩, ⟨p2c, p2t⟩, ⟨pfc, pft⟩, prov⟩ := env
  have hcount : ∀ tcs : List ToolCall,
      (runTools prov tcs 0 [Msg.user, Msg.assistantToolCalls]).2 ≤ tcs.length := fun tcs => by
    simpa using runTools_count_le prov tcs 0 [Msg.user, Msg.assistantToolCalls]
  have h13 : (1 : Nat) ≤ 3 := by decide
  have h23 : (2 : Nat) ≤ 3 := by decide
  have h33 : (3 : Nat) ≤ 3 := by decide
  simp only [runPipeline, toolCallLimit]
  split
  · exact ⟨h13, Nat.zero_le _⟩
  · split
    · split
      · split
        · split
          · exact ⟨h33, hcount _⟩
          · exact ⟨h33, hcount _⟩
        · exact ⟨h23, hcount _⟩
      · exact ⟨h23, Nat.zero_le _⟩
    · exact ⟨h13, Nat.zero_le _⟩

/-- Claim C9 (counterexample): the Phase-2 response carries an empty
`tool_calls` array — it contains no tool-invocation requests — yet, because
an empty array is truthy in JS, the handler enters the tool branch, the
loop does nothing, the line-287 guard passes, and a THIRD identification
call is issued whose parsed content (not the Phase-1 record) is returned. -/
theorem C9_counterexample :
    runPipeline envC9 = (.ok recFinal, ⟨3, 0⟩) ∧ ¬ recFinal = recUnknown := by
  refine ⟨rfl, by decide⟩

/-- Claim C9 (amended): with Phase 1 `Unknown`, if the Phase-2 response has
NO `tool_calls` field at all, the pipeline returns the Phase-1 record after
exactly two identification calls and no retrieval; but if the response
carries a present-but-empty `tool_calls` array, a third identification call
is still issued and its parsed content is returned. -/
theorem C9_no_toolcalls_field (p1t pft : Option (List ToolCall))
    (p2c pfc : Option SceneRecord) (prov : Nat → SerpEnv) (rec1 rec3 : SceneRecord)
    (h2 : rec1.movie_or_series = "Unknown".toList) :
    runPipeline ⟨⟨some rec1, p1t⟩, ⟨p2c, none⟩, ⟨pfc, pft⟩, prov⟩ = (.ok rec1, ⟨2, 0⟩)
    ∧ runPipeline ⟨⟨some rec1, p1t⟩, ⟨p2c, some []⟩, ⟨some rec3, pft⟩, prov⟩
        = (.ok rec3, ⟨3, 0⟩) := by
  constructor
  · simp [runPipeline, h2]
  · simp [runPipeline, h2, runTools, msgQuota]

/-- Witness for C9 (amended): the absent-field case at `envC1` and the
empty-array case at `envC9`. -/
theorem C9_witness :
    runPipeline envC1 = (.ok recUnknown, ⟨2, 0⟩)
    ∧ runPipeline envC9 = (.ok recFinal, ⟨3, 0⟩) :=
  ⟨(C9_no_toolcalls_field none none none none (fun _ => serpOkEmpty)
      recUnknown recFinal (by decide)).1,
    (C9_no_toolcalls_field none none none (some recFinal) (fun _ => serpOkEmpty)
      recUnknown recFinal (by decide)).2⟩

/-- Claim C10: when the top video-hosting hit's link has no `v=` parameter,
the tool still returns an Evidence outcome for it — `video_id` null,
transcript equal to the `Transcript not fetched.` sentinel — and the
caption block is never entered (zero caption-provider requests). -/
theorem C10_no_video_id (env : SerpEnv) (organic : List SearchResult)
    (top : SearchResult) (rest : List SearchResult)
    (h1 : env.searchResp = .ok organic)
    (h2 : organic.filter (fun r => containsSub "youtube.com/watch".toList r.link)
      = top :: rest)
    (h3 : extractVid top.link = none) :
    searchWebAndYoutube env
      = (.results [⟨top.title, top.link, top.snippet, none,
          "Transcript not fetched.".toList⟩], 0) := by
  unfold searchWebAndYoutube
  rw [h1]
  simp only [h2, h3]

/-- Witness for C10 at `serpNoVid` (a `youtube.com/watch/...` link with no
`v=` parameter). -/
theorem C10_witness :
    searchWebAndYoutube serpNoVid
      = (.results [⟨"some clip".toList, "https://youtube.com/watch/abc".toList,
          "snippet".toList, none, "Transcript not fetched.".toList⟩], 0) :=
  C10_no_video_id serpNoVid
    [⟨"some clip".toList, "https://youtube.com/watch/abc".toList, "snippet".toList⟩]
    ⟨"some clip".toList, "https://youtube.com/watch/abc".toList, "snippet".toList⟩
    [] rfl (by decide) (by decide)

end SceneFinder
